import Mathlib

/-!
Shallow embedding of main.py from the shutterfly-dl utility, together with
proofs about the geo conversion (lines 19-42), the downloader (lines 57-104)
and the CLI exit path (lines 191-226).

Modelling conventions: machine floats are modelled by exact rationals, and
Python int() truncation and divmod are given their exact semantics on those
rationals.  The external collaborators the program only orchestrates
(requests, the exif codec, pathvalidate, uuid generation, strftime and the
float parser) are parameters of the model, bundled in the Env structure.
The filesystem is an explicit state: a set of directory paths, an
association list of file contents, and an association list of modification
times.  Paths are the plain strings the program itself manipulates via
str(...), joined with a slash as pathlib does for the inputs in question.
-/

abbrev DMS := ℤ × ℤ × ℤ

abbrev Coordinate := DMS × DMS

/-- Python int() applied to a (here: rational-valued) float: truncation
toward zero. -/
def ratTrunc (q : ℚ) : ℤ := if q < 0 then -⌊-q⌋ else ⌊q⌋

/-- Python divmod(a, b) on floats: (floor(a/b), a - b*floor(a/b)). -/
def pyDivmod (a b : ℚ) : ℚ × ℚ :=
  (((⌊a / b⌋ : ℤ) : ℚ), a - b * ((⌊a / b⌋ : ℤ) : ℚ))

/-- main.py lines 19-32: converts a geo coordinate decimal to
(degrees, minutes, seconds).  The sign branch mirrors lines 25-31: the
negation is applied to the float value first, and int() conversion to the
triple happens at the return on line 32. -/
def decimal_to_dms (decimal : ℚ) : DMS :=
  let d := |decimal|
  let minutes0 := (pyDivmod (d * 3600) 60).1
  let seconds0 := (pyDivmod (d * 3600) 60).2
  let degrees0 := (pyDivmod minutes0 60).1
  let minutes1 := (pyDivmod minutes0 60).2
  if decimal < 0 then
    if degrees0 > 0 then (ratTrunc (-degrees0), ratTrunc minutes1, ratTrunc seconds0)
    else if minutes1 > 0 then (ratTrunc degrees0, ratTrunc (-minutes1), ratTrunc seconds0)
    else (ratTrunc degrees0, ratTrunc minutes1, ratTrunc (-seconds0))
  else (ratTrunc degrees0, ratTrunc minutes1, ratTrunc seconds0)

/-- main.py lines 35-42: split the string on the comma into exactly two
pieces (a two-element destructuring, which raises on any other shape,
modelled as none), parse each side as a float (raises on failure, modelled
as none), and convert each side.  The float parser belongs to the Python
runtime and is a parameter. -/
def lat_long_decimal_to_dms (pf : String → Option ℚ) (coord : String) :
    Option Coordinate :=
  match coord.splitOn "," with
  | [n, w] =>
    match pf n, pf w with
    | some a, some b => some (decimal_to_dms a, decimal_to_dms b)
    | _, _ => none
  | _ => none

/-- Python substring search helper: pat is a prefix of l. -/
def startsWithL : List Char → List Char → Bool
  | _, [] => true
  | [], _ :: _ => false
  | a :: as, b :: bs => a == b && startsWithL as bs

/-- Python substring search helper on character lists. -/
def containsSubL : List Char → List Char → Bool
  | [], pat => pat.isEmpty
  | a :: as, pat => startsWithL (a :: as) pat || containsSubL as pat

/-- The Python expression pat in s on strings: substring membership. -/
def strContains (s pat : String) : Bool := containsSubL s.data pat.data

/-- Python slicing str[:-n]: all characters but the last n. -/
def strDropRight (s : String) (n : Nat) : String :=
  ⟨s.data.take (s.data.length - n)⟩

/-- Python str.replace of the slash character with a space (line 67). -/
def replaceSlashSpace (s : String) : String :=
  ⟨s.data.map fun c => if c = '/' then ' ' else c⟩

/-- main.py lines 45-49.  The capture date is an abstract timestamp; its
strftime rendering is a parameter of the model (Env.fmtDate). -/
structure Photo where
  id : String
  title : String
  url : String
  capture_date : Option Nat
deriving DecidableEq

/-- main.py lines 52-54. -/
structure Album where
  title : String
  photos : List Photo
deriving DecidableEq

/-- File contents as a byte sequence. -/
abbrev ByteSeq := List Nat

/-- Model of an exif.Image object: the opaque parsed payload plus the four
GPS attributes that main.py lines 89-92 assign. -/
structure ExifImg where
  base : ByteSeq
  gps_latitude : Option DMS := none
  gps_latitude_ref : Option String := none
  gps_longitude : Option DMS := none
  gps_longitude_ref : Option String := none
deriving DecidableEq

/-- The external collaborators main.py orchestrates, as model parameters:
the HTTP GET body fetch, the exif codec (parse may reject, modelled as
none, which the code catches as RuntimeError), pathvalidate sanitizers,
the uuid4 stream (indexed by a draw counter), and strftime rendering. -/
structure Env where
  net : String → ByteSeq
  exifParse : ByteSeq → Option ExifImg
  exifSerialize : ExifImg → ByteSeq
  sanitize_filename : String → String
  sanitize_filepath : String → String
  uuid : Nat → String
  fmtDate : Nat → String

/-- Filesystem state: directory paths, file contents, modification times. -/
structure FS where
  dirs : List String
  files : List (String × ByteSeq)
  mtimes : List (String × String)
deriving DecidableEq

/-- Observable side effects of a run: photo-byte GET requests (line 80) and
the EXIF warning log line (line 97). -/
inductive Event where
  | get (url : String)
  | exifWarn
deriving DecidableEq

/-- Run state: the filesystem, the effect trace, and how many uuid tokens
have been drawn so far. -/
structure St where
  fs : FS
  trace : List Event
  uuidCtr : Nat
deriving DecidableEq

/-- Content of the file at a path, if one exists. -/
def lookupFile (fs : FS) (p : String) : Option ByteSeq :=
  List.lookup p fs.files

/-- Path.exists(): true for files and directories alike (line 72). -/
def pathExists (fs : FS) (p : String) : Bool :=
  (lookupFile fs p).isSome || fs.dirs.contains p

/-- open(p, "wb") followed by writing b: create or truncate (lines 81-83,
94-95). -/
def setFile (fs : FS) (p : String) (b : ByteSeq) : FS :=
  { fs with files := (p, b) :: fs.files.filter fun e => ¬ e.1 == p }

/-- /usr/bin/touch -mt t p (line 102). -/
def setMtime (fs : FS) (p : String) (t : String) : FS :=
  { fs with mtimes := (p, t) :: fs.mtimes.filter fun e => ¬ e.1 == p }

/-- Path.mkdir(exist_ok=True) (line 68). -/
def mkdirExistOk (fs : FS) (p : String) : FS :=
  if fs.dirs.contains p then fs else { fs with dirs := p :: fs.dirs }

/-- main.py lines 75-76: append ".jpg" when the str of the whole path
carries no dot anywhere. -/
def withExtension (f : String) : String :=
  if strContains f "." then f else f ++ ".jpg"

/-- main.py lines 77-78: when "file.jpg" occurs anywhere in the str of the
path, drop the last eight characters and append a fresh uuid plus ".jpg";
also returns the updated uuid draw counter. -/
def withUnique (env : Env) (ctr : Nat) (f : String) : String × Nat :=
  if strContains f "file.jpg" then
    (strDropRight f 8 ++ env.uuid ctr ++ ".jpg", ctr + 1)
  else (f, ctr)

/-- Lines 75-78 combined: the destination actually written, starting from
the raw (pre-adjustment) path used by the exists check on line 72. -/
def destPath (env : Env) (ctr : Nat) (raw : String) : String × Nat :=
  withUnique env ctr (withExtension raw)

/-- main.py lines 89-92: the four GPS attribute assignments, with the
hemisphere references hardcoded to "N" and "W". -/
def setGps (img : ExifImg) (c : Coordinate) : ExifImg :=
  { img with
    gps_latitude := some c.1
    gps_latitude_ref := some "N"
    gps_longitude := some c.2
    gps_longitude_ref := some "W" }

/-- main.py lines 69-102: the body of the per-photo loop.  The exists
check on line 72 happens on the raw path, before the extension and unique
renames of lines 75-78; a skipped photo leaves the state untouched. -/
def downloadPhoto (env : Env) (coordinate : Option Coordinate)
    (group_path : String) (photo : Photo) (s : St) : St :=
  let raw := group_path ++ "/" ++ env.sanitize_filename photo.title
  if pathExists s.fs raw then s
  else
    let dc := destPath env s.uuidCtr raw
    let filename := dc.1
    let bytes := env.net photo.url
    let fs1 := setFile s.fs filename bytes
    let tr1 := s.trace ++ [Event.get photo.url]
    let et : FS × List Event :=
      match coordinate with
      | none => (fs1, tr1)
      | some c =>
        match env.exifParse bytes with
        | none => (fs1, tr1 ++ [Event.exifWarn])
        | some img => (setFile fs1 filename (env.exifSerialize (setGps img c)), tr1)
    let fs2 :=
      match photo.capture_date with
      | none => et.1
      | some t => setMtime et.1 filename (env.fmtDate t)
    ⟨fs2, et.2, dc.2⟩

/-- The inner for loop of lines 69-102 over the photos of one album. -/
def downloadPhotos (env : Env) (coordinate : Option Coordinate)
    (group_path : String) : List Photo → St → St
  | [], s => s
  | p :: ps, s =>
    downloadPhotos env coordinate group_path ps
      (downloadPhoto env coordinate group_path p s)

/-- The sanitized album directory of line 67. -/
def albumDirPath (env : Env) (download_dir : String) (album : Album) : String :=
  download_dir ++ "/" ++ env.sanitize_filepath (replaceSlashSpace album.title)

/-- main.py lines 65-102: one album: derive the group directory, create it
if missing, then run the photo loop. -/
def downloadAlbum (env : Env) (coordinate : Option Coordinate)
    (download_dir : String) (album : Album) (s : St) : St :=
  let group_path := albumDirPath env download_dir album
  downloadPhotos env coordinate group_path album.photos
    { s with fs := mkdirExistOk s.fs group_path }

/-- The outer for loop of line 65 over the albums. -/
def downloadAlbumsLoop (env : Env) (coordinate : Option Coordinate)
    (download_dir : String) : List Album → St → St
  | [], s => s
  | a :: as, s =>
    downloadAlbumsLoop env coordinate download_dir as
      (downloadAlbum env coordinate download_dir a s)

/-- main.py lines 57-104: validate the download directory (lines 61-63,
returning False without touching anything when it is absent or not a
directory), run the loops, and return True. -/
def download_albums (env : Env) (albums : List Album) (download_dir : String)
    (coordinate : Option Coordinate) (s : St) : Bool × St :=
  if s.fs.dirs.contains download_dir then
    (true, downloadAlbumsLoop env coordinate download_dir albums s)
  else (false, s)

/-- main.py lines 191-222: the portion of main() after get_albums.  The geo
string, if present, goes through lat_long_decimal_to_dms, whose failure is
an uncaught exception (none); otherwise main returns the int of line 222. -/
def mainReturn (pf : String → Option ℚ) (env : Env) (albums : List Album)
    (directory : String) (geo : Option String) (s : St) : Option Nat :=
  match geo with
  | some g =>
    match lat_long_decimal_to_dms pf g with
    | none => none
    | some c =>
      some (if (download_albums env albums directory (some c) s).1 then 0 else 1)
  | none =>
    some (if (download_albums env albums directory none s).1 then 0 else 1)

/-- main.py lines 225-226: the module guard calls main() and discards its
return value; when the script completes without an uncaught exception the
interpreter exits with status 0. -/
def scriptExitStatus (pf : String → Option ℚ) (env : Env) (albums : List Album)
    (directory : String) (geo : Option String) (s : St) : Option Nat :=
  (mainReturn pf env albums directory geo s).map fun _ => 0

/-- A concrete instantiation of the external collaborators for concrete
runs: identity sanitizers (pathvalidate is the identity on the benign names
used below), a constant network body, an exif codec that rejects every
file, and a deterministic uuid stream. -/
def envId : Env where
  net := fun _ => [7]
  exifParse := fun _ => none
  exifSerialize := fun i => i.base
  sanitize_filename := fun s => s
  sanitize_filepath := fun s => s
  uuid := fun n => "u" ++ Nat.repr n
  fmtDate := fun n => Nat.repr n

/-- Like envId but with an exif codec that accepts every file and
serializes the image as its base bytes followed by a marker byte. -/
def envExif : Env where
  net := fun _ => [7]
  exifParse := fun b => some { base := b }
  exifSerialize := fun i => i.base ++ [9]
  sanitize_filename := fun s => s
  sanitize_filepath := fun s => s
  uuid := fun n => "u" ++ Nat.repr n
  fmtDate := fun n => Nat.repr n

/-- A one-album, one-photo fixture for concrete runs: photo title with no
extension, so the prior-run destination gains a ".jpg" suffix. -/
def albumsEx : List Album := [⟨"album", [⟨"p1", "photo", "u1", none⟩]⟩]

/-- An initial state whose filesystem holds exactly the target directory
"d". -/
def sEx : St := ⟨⟨["d"], [], []⟩, [], 0⟩

/-- A fixture whose photo title already carries an extension, so the raw
path checked on line 72 coincides with the produced destination. -/
def albumsEx2 : List Album := [⟨"album", [⟨"p1", "photo.jpg", "u1", none⟩]⟩]

/-- A state describing the disk after a complete run on albumsEx2: the
produced file sits exactly at the raw path. -/
def sEx2 : St := ⟨⟨["d/album", "d"], [("d/album/photo.jpg", [7])], []⟩, [], 0⟩

/-- Normal form of the unsigned degrees value computed by lines 23-24 of
decimal_to_dms, on the absolute value a of the input. -/
def dmsG (a : ℚ) : ℤ := ⌊((⌊a * 3600 / 60⌋ : ℤ) : ℚ) / 60⌋

/-- Normal form of the unsigned minutes value of lines 23-24. -/
def dmsM (a : ℚ) : ℤ := ⌊a * 3600 / 60⌋ - 60 * dmsG a

/-- Normal form of the truncated unsigned seconds value of lines 23 and 32. -/
def dmsS (a : ℚ) : ℤ := ⌊a * 3600⌋ - 60 * ⌊a * 3600 / 60⌋

/-- The sign the claim reads off a DMS triple: negative when some component
is negative. -/
def dmsSign (t : DMS) : ℚ :=
  if t.1 < 0 ∨ t.2.1 < 0 ∨ t.2.2 < 0 then -1 else 1

/-- The inverse reconstruction named by the claim: degrees plus minutes
over 60 plus seconds over 3600, with the sign read off the signed
component. -/
def dmsToDecimal (t : DMS) : ℚ :=
  dmsSign t * (|(t.1 : ℚ)| + |(t.2.1 : ℚ)| / 60 + |(t.2.2 : ℚ)| / 3600)

example :
    (download_albums envId [⟨"album", [⟨"p1", "photo", "u1", none⟩]⟩] "d" none
        ⟨⟨["d"], [], []⟩, [], 0⟩).2.fs.files
      = [("d/album/photo.jpg", [7])] := by decide

example : decimal_to_dms 0 = (0, 0, 0) := by with_unfolding_all decide
example : decimal_to_dms (-1/7200) = (0, 0, 0) := by with_unfolding_all decide
example : decimal_to_dms (-1/60) = (0, -1, 0) := by with_unfolding_all decide
example : decimal_to_dms (1 + 1/60) = (1, 1, 0) := by with_unfolding_all decide
example : decimal_to_dms (-(74 + 11/3600 + 1/7200)) = (-74, 0, 11) := by
  with_unfolding_all decide

lemma ratTrunc_intCast (n : ℤ) : ratTrunc (n : ℚ) = n := by
  unfold ratTrunc
  by_cases h : (n : ℚ) < 0
  · rw [if_pos h, ← Int.cast_neg, Int.floor_intCast, neg_neg]
  · rw [if_neg h, Int.floor_intCast]

lemma ratTrunc_of_nonneg {q : ℚ} (h : 0 ≤ q) : ratTrunc q = ⌊q⌋ := by
  unfold ratTrunc
  rw [if_neg (not_lt.mpr h)]

lemma ratTrunc_neg_of_nonneg {q : ℚ} (h : 0 ≤ q) : ratTrunc (-q) = -⌊q⌋ := by
  unfold ratTrunc
  rcases eq_or_lt_of_le h with h0 | h0
  · rw [← h0]
    norm_num
  · rw [if_pos (by linarith), neg_neg]

lemma seconds0_nonneg (a : ℚ) :
    0 ≤ a * 3600 - 60 * ((⌊a * 3600 / 60⌋ : ℤ) : ℚ) := by
  have h := Int.floor_le (a * 3600 / 60)
  have h2 : ((⌊a * 3600 / 60⌋ : ℤ) : ℚ) * 60 ≤ a * 3600 / 60 * 60 := by linarith
  have h3 : a * 3600 / 60 * 60 = a * 3600 := by ring
  linarith

lemma seconds0_lt (a : ℚ) :
    a * 3600 - 60 * ((⌊a * 3600 / 60⌋ : ℤ) : ℚ) < 60 := by
  have h := Int.lt_floor_add_one (a * 3600 / 60)
  have h2 : a * 3600 / 60 * 60 < (((⌊a * 3600 / 60⌋ : ℤ) : ℚ) + 1) * 60 := by linarith
  have h3 : a * 3600 / 60 * 60 = a * 3600 := by ring
  linarith

lemma floor_seconds0 (a : ℚ) :
    ⌊a * 3600 - 60 * ((⌊a * 3600 / 60⌋ : ℤ) : ℚ)⌋ = dmsS a := by
  unfold dmsS
  have h : (60 : ℚ) * ((⌊a * 3600 / 60⌋ : ℤ) : ℚ) = ((60 * ⌊a * 3600 / 60⌋ : ℤ) : ℚ) := by
    push_cast
    ring
  rw [h, Int.floor_sub_int]

lemma dmsG_nonneg {a : ℚ} (ha : 0 ≤ a) : 0 ≤ dmsG a := by
  unfold dmsG
  have h1 : (0 : ℤ) ≤ ⌊a * 3600 / 60⌋ := Int.floor_nonneg.mpr (by positivity)
  have h2 : (0 : ℚ) ≤ ((⌊a * 3600 / 60⌋ : ℤ) : ℚ) := by exact_mod_cast h1
  exact Int.floor_nonneg.mpr (by positivity)

lemma dmsM_nonneg (a : ℚ) : 0 ≤ dmsM a := by
  unfold dmsM dmsG
  have h := Int.floor_le (((⌊a * 3600 / 60⌋ : ℤ) : ℚ) / 60)
  have h2 : ((⌊((⌊a * 3600 / 60⌋ : ℤ) : ℚ) / 60⌋ : ℤ) : ℚ) * 60
      ≤ ((⌊a * 3600 / 60⌋ : ℤ) : ℚ) / 60 * 60 := by linarith
  have h3 : ((⌊a * 3600 / 60⌋ : ℤ) : ℚ) / 60 * 60 = ((⌊a * 3600 / 60⌋ : ℤ) : ℚ) := by
    ring
  rw [h3] at h2
  have : (0 : ℚ) ≤ ((⌊a * 3600 / 60⌋ : ℤ) : ℚ) - 60 * ((⌊((⌊a * 3600 / 60⌋ : ℤ) : ℚ) / 60⌋ : ℤ) : ℚ) := by
    linarith
  exact_mod_cast this

lemma dmsS_nonneg (a : ℚ) : 0 ≤ dmsS a := by
  have h1 := seconds0_nonneg a
  have h2 := floor_seconds0 a
  rw [← h2]
  exact Int.floor_nonneg.mpr h1

lemma dms_key (a : ℚ) : 3600 * dmsG a + 60 * dmsM a + dmsS a = ⌊a * 3600⌋ := by
  unfold dmsM dmsS
  ring

lemma recon_core (a : ℚ) :
    ((dmsG a : ℤ) : ℚ) + ((dmsM a : ℤ) : ℚ) / 60 + ((dmsS a : ℤ) : ℚ) / 3600
      = ((⌊a * 3600⌋ : ℤ) : ℚ) / 3600 := by
  have h := dms_key a
  have hq : ((3600 * dmsG a + 60 * dmsM a + dmsS a : ℤ) : ℚ) = ((⌊a * 3600⌋ : ℤ) : ℚ) := by
    exact_mod_cast congrArg (fun z : ℤ => (z : ℚ)) h
  push_cast at hq
  linarith

lemma floor_err_nonneg (x : ℚ) : 0 ≤ x - ((⌊x⌋ : ℤ) : ℚ) := by
  have := Int.floor_le x
  linarith

lemma floor_err_lt (x : ℚ) : x - ((⌊x⌋ : ℤ) : ℚ) < 1 := by
  have := Int.lt_floor_add_one x
  linarith

lemma minutes1_cast (a : ℚ) :
    ((⌊a * 3600 / 60⌋ : ℤ) : ℚ) - 60 * ((⌊((⌊a * 3600 / 60⌋ : ℤ) : ℚ) / 60⌋ : ℤ) : ℚ)
      = ((dmsM a : ℤ) : ℚ) := by
  unfold dmsM dmsG
  push_cast
  ring

lemma ratTrunc_minutes1 (a : ℚ) :
    ratTrunc (((⌊a * 3600 / 60⌋ : ℤ) : ℚ)
        - 60 * ((⌊((⌊a * 3600 / 60⌋ : ℤ) : ℚ) / 60⌋ : ℤ) : ℚ))
      = dmsM a := by
  rw [minutes1_cast, ratTrunc_intCast]

lemma ratTrunc_neg_minutes1 (a : ℚ) :
    ratTrunc (-(((⌊a * 3600 / 60⌋ : ℤ) : ℚ)
        - 60 * ((⌊((⌊a * 3600 / 60⌋ : ℤ) : ℚ) / 60⌋ : ℤ) : ℚ)))
      = -(dmsM a) := by
  rw [minutes1_cast, ← Int.cast_neg, ratTrunc_intCast]

lemma ratTrunc_seconds0 (a : ℚ) :
    ratTrunc (a * 3600 - 60 * ((⌊a * 3600 / 60⌋ : ℤ) : ℚ)) = dmsS a := by
  rw [ratTrunc_of_nonneg (seconds0_nonneg a), floor_seconds0]

lemma ratTrunc_neg_seconds0 (a : ℚ) :
    ratTrunc (-(a * 3600 - 60 * ((⌊a * 3600 / 60⌋ : ℤ) : ℚ))) = -(dmsS a) := by
  rw [ratTrunc_neg_of_nonneg (seconds0_nonneg a), floor_seconds0]

lemma decimal_to_dms_nonneg_eval (d : ℚ) (hd : 0 ≤ d) :
    decimal_to_dms d = (dmsG d, dmsM d, dmsS d) := by
  simp only [decimal_to_dms, pyDivmod]
  rw [abs_of_nonneg hd, if_neg (not_lt.mpr hd), ratTrunc_minutes1 d,
    ratTrunc_seconds0 d, ratTrunc_intCast]
  rfl

lemma decimal_to_dms_neg_deg (d : ℚ) (hd : d < 0) (h : 0 < dmsG (-d)) :
    decimal_to_dms d = (-(dmsG (-d)), dmsM (-d), dmsS (-d)) := by
  simp only [decimal_to_dms, pyDivmod]
  rw [abs_of_neg hd, if_pos hd]
  split
  · rw [ratTrunc_minutes1 (-d), ratTrunc_seconds0 (-d), ← Int.cast_neg, ratTrunc_intCast]
    rfl
  · rename_i hc
    exact absurd (Int.cast_pos.mpr h) hc

lemma decimal_to_dms_neg_min (d : ℚ) (hd : d < 0) (h : ¬ 0 < dmsG (-d))
    (h2 : 0 < dmsM (-d)) :
    decimal_to_dms d = (dmsG (-d), -(dmsM (-d)), dmsS (-d)) := by
  simp only [decimal_to_dms, pyDivmod]
  rw [abs_of_neg hd, if_pos hd]
  split
  · rename_i hc
    exact absurd (Int.cast_pos.mp hc) h
  · split
    · rw [ratTrunc_neg_minutes1 (-d), ratTrunc_seconds0 (-d), ratTrunc_intCast]
      rfl
    · rename_i hc2
      have hm : ((⌊(-d) * 3600 / 60⌋ : ℤ) : ℚ)
          - 60 * ((⌊((⌊(-d) * 3600 / 60⌋ : ℤ) : ℚ) / 60⌋ : ℤ) : ℚ) > 0 := by
        rw [minutes1_cast (-d)]
        exact Int.cast_pos.mpr h2
      exact absurd hm hc2

lemma decimal_to_dms_neg_sec (d : ℚ) (hd : d < 0) (h : ¬ 0 < dmsG (-d))
    (h2 : ¬ 0 < dmsM (-d)) :
    decimal_to_dms d = (dmsG (-d), dmsM (-d), -(dmsS (-d))) := by
  simp only [decimal_to_dms, pyDivmod]
  rw [abs_of_neg hd, if_pos hd]
  split
  · rename_i hc
    exact absurd (Int.cast_pos.mp hc) h
  · split
    · rename_i hc2
      have hm := hc2
      rw [minutes1_cast (-d)] at hm
      exact absurd (Int.cast_pos.mp hm) h2
    · rw [ratTrunc_minutes1 (-d), ratTrunc_neg_seconds0 (-d), ratTrunc_intCast]
      rfl

lemma dmsToDecimal_mk (G M S : ℤ) :
    dmsToDecimal (G, M, S)
      = dmsSign (G, M, S) * (|(G : ℚ)| + |(M : ℚ)| / 60 + |(S : ℚ)| / 3600) := rfl

lemma dmsSign_mk (G M S : ℤ) :
    dmsSign (G, M, S) = if G < 0 ∨ M < 0 ∨ S < 0 then -1 else 1 := rfl

lemma dmsToDecimal_of_nonneg {G M S : ℤ} (hG : 0 ≤ G) (hM : 0 ≤ M) (hS : 0 ≤ S) :
    dmsToDecimal (G, M, S) = (G : ℚ) + (M : ℚ) / 60 + (S : ℚ) / 3600 := by
  rw [dmsToDecimal_mk, dmsSign_mk, if_neg (by push_neg; exact ⟨hG, hM, hS⟩),
    abs_of_nonneg (by exact_mod_cast hG), abs_of_nonneg (by exact_mod_cast hM),
    abs_of_nonneg (by exact_mod_cast hS)]
  ring

lemma dmsToDecimal_neg_fst {G M S : ℤ} (hG : 0 < G) (hM : 0 ≤ M) (hS : 0 ≤ S) :
    dmsToDecimal (-G, M, S) = -((G : ℚ) + (M : ℚ) / 60 + (S : ℚ) / 3600) := by
  rw [dmsToDecimal_mk, dmsSign_mk, if_pos (Or.inl (by omega))]
  push_cast
  rw [abs_neg, abs_of_nonneg (by exact_mod_cast hG.le : (0 : ℚ) ≤ (G : ℚ)),
    abs_of_nonneg (by exact_mod_cast hM : (0 : ℚ) ≤ (M : ℚ)),
    abs_of_nonneg (by exact_mod_cast hS : (0 : ℚ) ≤ (S : ℚ))]
  ring

lemma dmsToDecimal_neg_snd {G M S : ℤ} (hG : 0 ≤ G) (hM : 0 < M) (hS : 0 ≤ S) :
    dmsToDecimal (G, -M, S) = -((G : ℚ) + (M : ℚ) / 60 + (S : ℚ) / 3600) := by
  rw [dmsToDecimal_mk, dmsSign_mk, if_pos (Or.inr (Or.inl (by omega)))]
  push_cast
  rw [abs_neg, abs_of_nonneg (by exact_mod_cast hG : (0 : ℚ) ≤ (G : ℚ)),
    abs_of_nonneg (by exact_mod_cast hM.le : (0 : ℚ) ≤ (M : ℚ)),
    abs_of_nonneg (by exact_mod_cast hS : (0 : ℚ) ≤ (S : ℚ))]
  ring

lemma dmsToDecimal_neg_trd {G M S : ℤ} (hG : 0 ≤ G) (hM : 0 ≤ M) (hS : 0 < S) :
    dmsToDecimal (G, M, -S) = -((G : ℚ) + (M : ℚ) / 60 + (S : ℚ) / 3600) := by
  rw [dmsToDecimal_mk, dmsSign_mk, if_pos (Or.inr (Or.inr (by omega)))]
  push_cast
  rw [abs_neg, abs_of_nonneg (by exact_mod_cast hG : (0 : ℚ) ≤ (G : ℚ)),
    abs_of_nonneg (by exact_mod_cast hM : (0 : ℚ) ≤ (M : ℚ)),
    abs_of_nonneg (by exact_mod_cast hS.le : (0 : ℚ) ≤ (S : ℚ))]
  ring

lemma recon_close (a : ℚ) :
    |((⌊a * 3600⌋ : ℤ) : ℚ) / 3600 - a| < 1 / 3600 := by
  have h1 := Int.floor_le (a * 3600)
  have h2 := Int.lt_floor_add_one (a * 3600)
  rw [abs_lt]
  constructor <;> linarith

/-- C6 (amended): for every decimal degree value d, reconstructing a
decimal from decimal_to_dms d (degrees plus minutes over 60 plus seconds
over 3600, the sign read off the signed component) reproduces d to within
one whole second of arc; and for negative d of magnitude at least one
second, the sign appears on exactly one component: degrees if nonzero,
else minutes if nonzero, else seconds.  (For negative d of magnitude
below one second the sign is lost: see the counterexample theorem.) -/
theorem dms_roundtrip_and_sign (d : ℚ) :
    |dmsToDecimal (decimal_to_dms d) - d| < 1 / 3600 ∧
    (d ≤ -(1 / 3600) →
      ((decimal_to_dms d).1 < 0 ∧ 0 ≤ (decimal_to_dms d).2.1 ∧
        0 ≤ (decimal_to_dms d).2.2) ∨
      ((decimal_to_dms d).1 = 0 ∧ (decimal_to_dms d).2.1 < 0 ∧
        0 ≤ (decimal_to_dms d).2.2) ∨
      ((decimal_to_dms d).1 = 0 ∧ (decimal_to_dms d).2.1 = 0 ∧
        (decimal_to_dms d).2.2 < 0)) := by
  by_cases hd : d < 0
  · have ha : (0 : ℚ) ≤ -d := by linarith
    by_cases hG : 0 < dmsG (-d)
    · rw [decimal_to_dms_neg_deg d hd hG]
      constructor
      · rw [dmsToDecimal_neg_fst hG (dmsM_nonneg (-d)) (dmsS_nonneg (-d))]
        rw [recon_core (-d)]
        have hb := recon_close (-d)
        rw [abs_lt] at hb ⊢
        constructor <;> linarith [hb.1, hb.2]
      · intro _
        exact Or.inl ⟨by omega, dmsM_nonneg (-d), dmsS_nonneg (-d)⟩
    · have hG0 : dmsG (-d) = 0 := le_antisymm (not_lt.mp hG) (dmsG_nonneg ha)
      by_cases hM : 0 < dmsM (-d)
      · rw [decimal_to_dms_neg_min d hd hG hM]
        constructor
        · rw [dmsToDecimal_neg_snd (dmsG_nonneg ha) hM (dmsS_nonneg (-d))]
          rw [recon_core (-d)]
          have hb := recon_close (-d)
          rw [abs_lt] at hb ⊢
          constructor <;> linarith [hb.1, hb.2]
        · intro _
          exact Or.inr (Or.inl ⟨hG0, neg_lt_zero.mpr hM, dmsS_nonneg (-d)⟩)
      · have hM0 : dmsM (-d) = 0 := le_antisymm (not_lt.mp hM) (dmsM_nonneg (-d))
        have hSx : dmsS (-d) = ⌊(-d) * 3600⌋ := by
          have hk := dms_key (-d)
          omega
        rw [decimal_to_dms_neg_sec d hd hG hM]
        constructor
        · have hval : dmsToDecimal (dmsG (-d), dmsM (-d), -(dmsS (-d)))
              = -(((dmsG (-d) : ℤ) : ℚ) + ((dmsM (-d) : ℤ) : ℚ) / 60
                  + ((dmsS (-d) : ℤ) : ℚ) / 3600) := by
            rcases (dmsS_nonneg (-d)).lt_or_eq with hS | hS
            · exact dmsToDecimal_neg_trd (dmsG_nonneg ha) (dmsM_nonneg (-d)) hS
            · rw [← hS, neg_zero, hG0, hM0,
                dmsToDecimal_of_nonneg le_rfl le_rfl le_rfl]
              norm_num
          rw [hval, recon_core (-d)]
          have hb := recon_close (-d)
          rw [abs_lt] at hb ⊢
          constructor <;> linarith [hb.1, hb.2]
        · intro hle
          have hx : (1 : ℚ) ≤ (-d) * 3600 := by linarith
          have hfl : (1 : ℤ) ≤ ⌊(-d) * 3600⌋ := Int.le_floor.mpr (by push_cast; linarith)
          exact Or.inr (Or.inr ⟨hG0, hM0, neg_lt_zero.mpr (by omega)⟩)
  · have hd0 : (0 : ℚ) ≤ d := not_lt.mp hd
    rw [decimal_to_dms_nonneg_eval d hd0]
    constructor
    · rw [dmsToDecimal_of_nonneg (dmsG_nonneg hd0) (dmsM_nonneg d) (dmsS_nonneg d)]
      rw [recon_core d]
      exact recon_close d
    · intro hle
      exfalso
      linarith

/-- C10: for every negative decimal of magnitude strictly below one second
of arc (1/3600 degree), decimal_to_dms returns exactly (0, 0, 0): the
int() truncation on line 32 drops the sign the else-branch of line 31 had
put on the fractional seconds value. -/
theorem tiny_negative_truncates_to_zero (d : ℚ) (h1 : d < 0)
    (h2 : -d < 1 / 3600) : decimal_to_dms d = (0, 0, 0) := by
  have hm0 : ⌊(-d) * 3600 / 60⌋ = 0 := by
    rw [Int.floor_eq_zero_iff, Set.mem_Ico]
    constructor
    · have hx : (0 : ℚ) ≤ -d * 3600 := by linarith
      exact div_nonneg hx (by norm_num)
    · linarith
  have hfl : ⌊(-d) * 3600⌋ = 0 := by
    rw [Int.floor_eq_zero_iff, Set.mem_Ico]
    constructor <;> linarith
  have hG0 : dmsG (-d) = 0 := by
    unfold dmsG
    rw [hm0]
    norm_num
  have hM0 : dmsM (-d) = 0 := by
    unfold dmsM
    rw [hm0, hG0]
    norm_num
  have hS0 : dmsS (-d) = 0 := by
    unfold dmsS
    rw [hfl, hm0]
    norm_num
  rw [decimal_to_dms_neg_sec d h1 (by rw [hG0]; exact lt_irrefl 0)
    (by rw [hM0]; exact lt_irrefl 0), hG0, hM0, hS0]
  norm_num

/-- C10 witness: the concrete input -1/7200 degree (half a second below
zero) satisfies both hypotheses and maps to (0, 0, 0). -/
theorem tiny_negative_truncates_to_zero_witness :
    (-1 / 7200 : ℚ) < 0 ∧ -(-1 / 7200 : ℚ) < 1 / 3600 ∧
      decimal_to_dms (-1 / 7200) = (0, 0, 0) :=
  ⟨by with_unfolding_all decide, by with_unfolding_all decide,
   tiny_negative_truncates_to_zero (-1 / 7200) (by with_unfolding_all decide)
     (by with_unfolding_all decide)⟩

/-- C6 counterexample: the claim as stated demands that for every negative
input the sign appear on one component (on seconds when degrees and
minutes are zero), but at d = -1/7200 the code returns (0, 0, 0): no
component is negative. -/
theorem dms_sign_lost_for_tiny_negative :
    (-1 / 7200 : ℚ) < 0 ∧ decimal_to_dms (-1 / 7200) = (0, 0, 0) ∧
      ¬ ((decimal_to_dms (-1 / 7200)).1 < 0 ∨
         (decimal_to_dms (-1 / 7200)).2.1 < 0 ∨
         (decimal_to_dms (-1 / 7200)).2.2 < 0) :=
  ⟨by with_unfolding_all decide, by with_unfolding_all decide,
   by with_unfolding_all decide⟩

/-- C6 witness: at d = -1/60 the magnitude hypothesis of the sign clause
holds, the roundtrip error is below one second, and the sign sits on the
minutes component alone. -/
theorem dms_roundtrip_and_sign_witness :
    |dmsToDecimal (decimal_to_dms (-1 / 60)) - (-1 / 60)| < 1 / 3600 ∧
    ((-1 / 60 : ℚ) ≤ -(1 / 3600)) ∧
    (((decimal_to_dms (-1 / 60)).1 < 0 ∧ 0 ≤ (decimal_to_dms (-1 / 60)).2.1 ∧
        0 ≤ (decimal_to_dms (-1 / 60)).2.2) ∨
     ((decimal_to_dms (-1 / 60)).1 = 0 ∧ (decimal_to_dms (-1 / 60)).2.1 < 0 ∧
        0 ≤ (decimal_to_dms (-1 / 60)).2.2) ∨
     ((decimal_to_dms (-1 / 60)).1 = 0 ∧ (decimal_to_dms (-1 / 60)).2.1 = 0 ∧
        (decimal_to_dms (-1 / 60)).2.2 < 0)) :=
  ⟨(dms_roundtrip_and_sign (-1 / 60)).1, by with_unfolding_all decide,
   (dms_roundtrip_and_sign (-1 / 60)).2 (by with_unfolding_all decide)⟩

lemma fileExists_pathExists {fs : FS} {p : String}
    (h : (lookupFile fs p).isSome = true) : pathExists fs p = true := by
  unfold pathExists
  rw [h]
  rfl

lemma downloadPhoto_skip (env : Env) (coord : Option Coordinate) (gp : String)
    (photo : Photo) (s : St)
    (h : pathExists s.fs (gp ++ "/" ++ env.sanitize_filename photo.title) = true) :
    downloadPhoto env coord gp photo s = s := by
  unfold downloadPhoto
  simp [h]

lemma mkdirExistOk_files (fs : FS) (p : String) : (mkdirExistOk fs p).files = fs.files := by
  unfold mkdirExistOk
  split <;> rfl

lemma mkdirExistOk_mtimes (fs : FS) (p : String) :
    (mkdirExistOk fs p).mtimes = fs.mtimes := by
  unfold mkdirExistOk
  split <;> rfl

lemma lookupFile_mkdirExistOk (fs : FS) (p q : String) :
    lookupFile (mkdirExistOk fs q) p = lookupFile fs p := by
  unfold lookupFile
  rw [mkdirExistOk_files]

lemma lookupFile_setFile_self (fs : FS) (p : String) (b : ByteSeq) :
    lookupFile (setFile fs p b) p = some b := by
  unfold lookupFile setFile
  simp [List.lookup]

lemma lookupFile_setMtime (fs : FS) (p t q : String) :
    lookupFile (setMtime fs p t) q = lookupFile fs q := rfl

lemma downloadPhotos_all_skip (env : Env) (coord : Option Coordinate)
    (gp : String) (ps : List Photo) (s : St)
    (h : ∀ p ∈ ps,
      (lookupFile s.fs (gp ++ "/" ++ env.sanitize_filename p.title)).isSome = true) :
    downloadPhotos env coord gp ps s = s := by
  induction ps with
  | nil => rfl
  | cons p ps ih =>
    simp only [downloadPhotos]
    rw [downloadPhoto_skip env coord gp p s
      (fileExists_pathExists (h p (List.mem_cons_self p ps)))]
    exact ih fun q hq => h q (List.mem_cons_of_mem p hq)

lemma downloadAlbum_all_skip (env : Env) (coord : Option Coordinate)
    (dir : String) (album : Album) (s : St)
    (h : ∀ p ∈ album.photos,
      (lookupFile s.fs
        (albumDirPath env dir album ++ "/" ++ env.sanitize_filename p.title)).isSome
        = true) :
    downloadAlbum env coord dir album s
      = { s with fs := mkdirExistOk s.fs (albumDirPath env dir album) } := by
  unfold downloadAlbum
  apply downloadPhotos_all_skip
  intro p hp
  rw [show ({ s with fs := mkdirExistOk s.fs (albumDirPath env dir album) } : St).fs
      = mkdirExistOk s.fs (albumDirPath env dir album) from rfl,
    lookupFile_mkdirExistOk]
  exact h p hp

lemma downloadAlbumsLoop_all_skip (env : Env) (coord : Option Coordinate)
    (dir : String) (albums : List Album) (s : St)
    (h : ∀ a ∈ albums, ∀ p ∈ a.photos,
      (lookupFile s.fs
        (albumDirPath env dir a ++ "/" ++ env.sanitize_filename p.title)).isSome
        = true) :
    (downloadAlbumsLoop env coord dir albums s).fs.files = s.fs.files ∧
    (downloadAlbumsLoop env coord dir albums s).fs.mtimes = s.fs.mtimes ∧
    (downloadAlbumsLoop env coord dir albums s).trace = s.trace := by
  induction albums generalizing s with
  | nil => exact ⟨rfl, rfl, rfl⟩
  | cons a as ih =>
    simp only [downloadAlbumsLoop]
    rw [downloadAlbum_all_skip env coord dir a s (h a (List.mem_cons_self a as))]
    have hfiles : ({ s with fs := mkdirExistOk s.fs (albumDirPath env dir a) } : St).fs.files
        = s.fs.files := mkdirExistOk_files s.fs _
    have hmt : ({ s with fs := mkdirExistOk s.fs (albumDirPath env dir a) } : St).fs.mtimes
        = s.fs.mtimes := mkdirExistOk_mtimes s.fs _
    have hih := ih { s with fs := mkdirExistOk s.fs (albumDirPath env dir a) }
      (fun a2 ha2 p hp => by
        rw [show ({ s with fs := mkdirExistOk s.fs (albumDirPath env dir a) } : St).fs
            = mkdirExistOk s.fs (albumDirPath env dir a) from rfl,
          lookupFile_mkdirExistOk]
        exact h a2 (List.mem_cons_of_mem a ha2) p hp)
    refine ⟨?_, ?_, ?_⟩
    · rw [hih.1, hfiles]
    · rw [hih.2.1, hmt]
    · exact hih.2.2

/-- C9: for every photo whose computed pre-extension destination path (the
path checked on line 72, before the ".jpg" append and the unique rename)
already exists as a file, the per-photo step of download_albums leaves the
whole state untouched: same file contents, same modification times, and an
unchanged effect trace (so no network request for that photo), whatever
the coordinate override and capture date are. -/
theorem skip_leaves_state_untouched (env : Env) (coord : Option Coordinate)
    (gp : String) (photo : Photo) (s : St)
    (h : (lookupFile s.fs (gp ++ "/" ++ env.sanitize_filename photo.title)).isSome
      = true) :
    downloadPhoto env coord gp photo s = s :=
  downloadPhoto_skip env coord gp photo s (fileExists_pathExists h)

/-- C9 witness: a photo with a coordinate override and a capture date whose
raw destination already holds a file is skipped outright. -/
theorem skip_leaves_state_untouched_witness :
    (lookupFile (FS.mk ["d"] [("d/a/x.jpg", [7])] [])
      ("d/a" ++ "/" ++ envId.sanitize_filename "x.jpg")).isSome = true ∧
    downloadPhoto envId (some ((1, 2, 3), (4, 5, 6))) "d/a" ⟨"p", "x.jpg", "u", some 5⟩
        ⟨⟨["d"], [("d/a/x.jpg", [7])], []⟩, [], 0⟩
      = ⟨⟨["d"], [("d/a/x.jpg", [7])], []⟩, [], 0⟩ :=
  ⟨by decide,
   skip_leaves_state_untouched envId (some ((1, 2, 3), (4, 5, 6))) "d/a"
     ⟨"p", "x.jpg", "u", some 5⟩ ⟨⟨["d"], [("d/a/x.jpg", [7])], []⟩, [], 0⟩ (by decide)⟩

/-- C5: download_albums returns failure exactly when the target directory
is not a known directory, and in that case it returns the state unchanged:
no directory created, no file written, no network call, no exception
(the model is total); when the directory is present it returns success,
whatever the per-photo loop does. -/
theorem validation_gates_success (env : Env) (albums : List Album) (dir : String)
    (coord : Option Coordinate) (s : St) :
    (s.fs.dirs.contains dir = true →
      (download_albums env albums dir coord s).1 = true) ∧
    (s.fs.dirs.contains dir = false →
      download_albums env albums dir coord s = (false, s)) := by
  constructor
  · intro h
    have hm : dir ∈ s.fs.dirs := List.mem_of_elem_eq_true h
    unfold download_albums
    simp [hm]
  · intro h
    have hm : dir ∉ s.fs.dirs := fun hmem => by
      have h2 : s.fs.dirs.elem dir = false := h
      rw [List.elem_eq_true_of_mem hmem] at h2
      exact absurd h2 (by decide)
    unfold download_albums
    simp [hm]

/-- C5 witness: both branches at concrete inputs: directory "d" present
gives success, directory "nope" absent gives (false, unchanged state). -/
theorem validation_gates_success_witness :
    (sEx.fs.dirs.contains "d" = true ∧
      (download_albums envId albumsEx "d" none sEx).1 = true) ∧
    (sEx.fs.dirs.contains "nope" = false ∧
      download_albums envId albumsEx "nope" none sEx = (false, sEx)) :=
  ⟨⟨by decide, (validation_gates_success envId albumsEx "d" none sEx).1 (by decide)⟩,
   ⟨by decide, (validation_gates_success envId albumsEx "nope" none sEx).2 (by decide)⟩⟩

/-- C1: the claim says the process exit status is 1 when download_albums
fails, but line 226 calls main() without sys.exit, discarding the return
value of line 222: on the failure input the function main computes 1 while
the interpreter still exits with status 0. -/
theorem exit_status_always_zero :
    mainReturn (fun _ => none) envId albumsEx "nope" none sEx = some 1 ∧
    scriptExitStatus (fun _ => none) envId albumsEx "nope" none sEx = some 0 :=
  ⟨by decide, by decide⟩

/-- C2 counterexample: the fixture albumsEx photo has the extension-less
title "photo", so the prior complete run produced "d/album/photo.jpg".
Re-invoking download_albums on that very filesystem still issues a GET for
the photo bytes, because the exists check of line 72 looks at the raw path
"d/album/photo", which the prior run never created. -/
theorem rerun_still_downloads :
    lookupFile (download_albums envId albumsEx "d" none sEx).2.fs "d/album/photo.jpg"
      = some [7] ∧
    (download_albums envId albumsEx "d" none
        ⟨(download_albums envId albumsEx "d" none sEx).2.fs, [], 0⟩).1 = true ∧
    (download_albums envId albumsEx "d" none
        ⟨(download_albums envId albumsEx "d" none sEx).2.fs, [], 0⟩).2.trace
      = [Event.get "u1"] :=
  ⟨by decide, by decide, by decide⟩

/-- C2 (amended): a photo is skipped exactly on the raw pre-adjustment
path check of line 72, so re-invocation performs zero photo-byte GETs and
returns success whenever, for every photo, a file already exists at the
raw path (directory of the sanitized album title plus the sanitized
filename, before the ".jpg" append and the unique rename).  When the
produced destination of a prior run differs from that raw path, the photo
is downloaded again. -/
theorem rerun_skips_when_raw_paths_exist (env : Env) (albums : List Album)
    (dir : String) (coord : Option Coordinate) (s : St)
    (hdir : s.fs.dirs.contains dir = true)
    (hall : ∀ a ∈ albums, ∀ p ∈ a.photos,
      (lookupFile s.fs
        (albumDirPath env dir a ++ "/" ++ env.sanitize_filename p.title)).isSome
        = true) :
    (download_albums env albums dir coord s).1 = true ∧
    (download_albums env albums dir coord s).2.trace = s.trace ∧
    (download_albums env albums dir coord s).2.fs.files = s.fs.files := by
  have hloop := downloadAlbumsLoop_all_skip env coord dir albums s hall
  unfold download_albums
  rw [if_pos hdir]
  exact ⟨rfl, hloop.2.2, hloop.1⟩

/-- C2 witness: on the fixture whose titles already carry extensions, with
the produced files on disk, re-invocation succeeds with an empty trace and
unchanged files. -/
theorem rerun_skips_when_raw_paths_exist_witness :
    (sEx2.fs.dirs.contains "d" = true) ∧
    (∀ a ∈ albumsEx2, ∀ p ∈ a.photos,
      (lookupFile sEx2.fs
        (albumDirPath envId "d" a ++ "/" ++ envId.sanitize_filename p.title)).isSome
        = true) ∧
    (download_albums envId albumsEx2 "d" none sEx2).1 = true ∧
    (download_albums envId albumsEx2 "d" none sEx2).2.trace = sEx2.trace ∧
    (download_albums envId albumsEx2 "d" none sEx2).2.fs.files = sEx2.fs.files := by
  have h := rerun_skips_when_raw_paths_exist envId albumsEx2 "d" none sEx2
    (by decide) (by decide)
  exact ⟨by decide, by decide, h.1, h.2.1, h.2.2⟩

/-- C3 counterexample: the photo title "photo" sanitizes to itself and has
no extension, yet with the target directory "my.photos" the written file
carries no ".jpg": line 75 tests the dot against str(filename), the whole
path, so a dot in a directory component suppresses the append. -/
theorem extension_depends_on_directory :
    strContains "photo" "." = false ∧
    (downloadPhoto envId none "my.photos/album" ⟨"p1", "photo", "u1", none⟩
        ⟨⟨["my.photos", "my.photos/album"], [], []⟩, [], 0⟩).fs.files
      = [("my.photos/album/photo", [7])] :=
  ⟨by decide, by decide⟩

/-- C3 (amended): the ".jpg" suffix is appended exactly when the full path
string (target directory, album directory and filename together) contains
no dot at all, provided the later "file.jpg" rename does not fire; it is
not independent of the directory components. -/
theorem extension_appended_iff_path_plain (env : Env) (ctr : Nat) (raw : String)
    (hnf : strContains (withExtension raw) "file.jpg" = false) :
    (strContains raw "." = false → (destPath env ctr raw).1 = raw ++ ".jpg") ∧
    (strContains raw "." = true → (destPath env ctr raw).1 = raw) := by
  constructor
  · intro h
    have hw : withExtension raw = raw ++ ".jpg" := by
      unfold withExtension
      simp [h]
    rw [hw] at hnf
    unfold destPath
    rw [hw]
    unfold withUnique
    simp [hnf]
  · intro h
    have hw : withExtension raw = raw := by
      unfold withExtension
      simp [h]
    rw [hw] at hnf
    unfold destPath
    rw [hw]
    unfold withUnique
    simp [hnf]

/-- C3 witness: on a dot-free full path the suffix is appended. -/
theorem extension_appended_iff_path_plain_witness :
    strContains (withExtension "d/album/photo") "file.jpg" = false ∧
    strContains "d/album/photo" "." = false ∧
    (destPath envId 0 "d/album/photo").1 = "d/album/photo" ++ ".jpg" := by
  have h := extension_appended_iff_path_plain envId 0 "d/album/photo" (by decide)
  exact ⟨by decide, by decide, h.1 (by decide)⟩

/-- C4 counterexample: the sanitized filename "profile.jpg" differs from
the literal "file.jpg", yet the photo is not written under its sanitized
name: line 77 tests "file.jpg" as a substring of the whole path, it
matches inside "profile.jpg", and line 78 clips the path and appends the
uuid token, producing "d/a/prou0.jpg". -/
theorem rename_on_substring_match :
    envId.sanitize_filename "profile.jpg" = "profile.jpg" ∧
    ("profile.jpg" : String) ≠ "file.jpg" ∧
    (downloadPhoto envId none "d/a" ⟨"p1", "profile.jpg", "u1", none⟩
        ⟨⟨["d", "d/a"], [], []⟩, [], 0⟩).fs.files
      = [("d/a/prou0.jpg", [7])] :=
  ⟨rfl, by decide, by decide⟩

/-- C4 (amended): the unique-token rename applies exactly when "file.jpg"
occurs as a substring anywhere in the full path string after the extension
step -- also for sanitized filenames that merely contain it, and also when
only a directory component contains it; otherwise the path passes through
unchanged and no uuid is drawn. -/
theorem rename_iff_substring (env : Env) (ctr : Nat) (raw : String) :
    (strContains (withExtension raw) "file.jpg" = false →
      (destPath env ctr raw).1 = withExtension raw ∧
      (destPath env ctr raw).2 = ctr) ∧
    (strContains (withExtension raw) "file.jpg" = true →
      (destPath env ctr raw).1
        = strDropRight (withExtension raw) 8 ++ env.uuid ctr ++ ".jpg" ∧
      (destPath env ctr raw).2 = ctr + 1) := by
  constructor <;> intro h <;> unfold destPath withUnique <;> simp [h]

/-- C4 witness: both branches at concrete paths: a clean path passes
through, a path containing "file.jpg" inside "profile.jpg" is renamed. -/
theorem rename_iff_substring_witness :
    (strContains (withExtension "d/a/x.png") "file.jpg" = false ∧
      (destPath envId 0 "d/a/x.png").1 = withExtension "d/a/x.png") ∧
    (strContains (withExtension "d/a/profile.jpg") "file.jpg" = true ∧
      (destPath envId 0 "d/a/profile.jpg").1
        = strDropRight (withExtension "d/a/profile.jpg") 8 ++ envId.uuid 0 ++ ".jpg") := by
  have h1 := rename_iff_substring envId 0 "d/a/x.png"
  have h2 := rename_iff_substring envId 0 "d/a/profile.jpg"
  exact ⟨⟨by decide, (h1.1 (by decide)).1⟩, ⟨by decide, (h2.2 (by decide)).1⟩⟩

/-- C7: when a coordinate override parsed from the geo string is supplied
and the photo is actually downloaded, the file ends up holding the exif
serialization of the downloaded bytes with gps_latitude and gps_longitude
set to the two DMS triples of the override and the hemisphere references
hardcoded to "N" and "W" whatever the triples signs are; and when the exif
codec rejects the bytes, the warning is logged and the file keeps exactly
the downloaded bytes, without tags. -/
theorem exif_override_fields (env : Env) (pf : String → Option ℚ) (geo : String)
    (c : Coordinate) (gp : String) (photo : Photo) (s : St)
    (hc : lat_long_decimal_to_dms pf geo = some c)
    (hskip : pathExists s.fs (gp ++ "/" ++ env.sanitize_filename photo.title) = false) :
    (∀ img, env.exifParse (env.net photo.url) = some img →
      lookupFile (downloadPhoto env (some c) gp photo s).fs
          (destPath env s.uuidCtr (gp ++ "/" ++ env.sanitize_filename photo.title)).1
        = some (env.exifSerialize
            { img with
              gps_latitude := some c.1
              gps_latitude_ref := some "N"
              gps_longitude := some c.2
              gps_longitude_ref := some "W" })) ∧
    (env.exifParse (env.net photo.url) = none →
      lookupFile (downloadPhoto env (some c) gp photo s).fs
          (destPath env s.uuidCtr (gp ++ "/" ++ env.sanitize_filename photo.title)).1
        = some (env.net photo.url) ∧
      Event.exifWarn ∈ (downloadPhoto env (some c) gp photo s).trace) := by
  constructor
  · intro img heq
    unfold downloadPhoto
    simp only [hskip, Bool.false_eq_true, if_false, heq]
    cases hcd : photo.capture_date with
    | none => simp [lookupFile_setFile_self, setGps]
    | some t => simp [lookupFile_setMtime, lookupFile_setFile_self, setGps]
  · intro heq
    unfold downloadPhoto
    simp only [hskip, Bool.false_eq_true, if_false, heq]
    constructor
    · cases hcd : photo.capture_date with
      | none => simp [lookupFile_setFile_self]
      | some t => simp [lookupFile_setMtime, lookupFile_setFile_self]
    · cases hcd : photo.capture_date with
      | none => simp
      | some t => simp

/-- C7 witness: with the codec that accepts, the written file is the
serialization carrying the override triples and the fixed "N"/"W"
references; hypotheses are discharged at the geo string "0,0". -/
theorem exif_override_fields_witness :
    lat_long_decimal_to_dms (fun _ => some 0) "0,0" = some ((0, 0, 0), (0, 0, 0)) ∧
    pathExists sEx.fs ("d/album" ++ "/" ++ envExif.sanitize_filename "x") = false ∧
    envExif.exifParse (envExif.net "u1") = some { base := [7] } ∧
    lookupFile (downloadPhoto envExif (some ((0, 0, 0), (0, 0, 0))) "d/album"
          ⟨"p1", "x", "u1", none⟩ sEx).fs
        (destPath envExif sEx.uuidCtr
          ("d/album" ++ "/" ++ envExif.sanitize_filename "x")).1
      = some (envExif.exifSerialize
          { base := [7]
            gps_latitude := some (0, 0, 0)
            gps_latitude_ref := some "N"
            gps_longitude := some (0, 0, 0)
            gps_longitude_ref := some "W" }) := by
  have h := exif_override_fields envExif (fun _ => some 0) "0,0" ((0, 0, 0), (0, 0, 0))
    "d/album" ⟨"p1", "x", "u1", none⟩ sEx (by with_unfolding_all decide) (by decide)
  exact ⟨by with_unfolding_all decide, by decide, rfl, h.1 { base := [7] } rfl⟩

lemma lat_long_eval {pf : String → Option ℚ} {coord : String} {n w : String}
    (hs : coord.splitOn "," = [n, w]) :
    lat_long_decimal_to_dms pf coord
      = match pf n, pf w with
        | some a, some b => some (decimal_to_dms a, decimal_to_dms b)
        | _, _ => none := by
  unfold lat_long_decimal_to_dms
  rw [hs]

/-- C8: lat_long_decimal_to_dms returns the pair of per-side conversions
exactly of the two comma-separated pieces when both parse as floats, and
fails exactly when the string does not split into one comma-separated pair
of parseable floats. -/
theorem split_parse_characterization (pf : String → Option ℚ) (coord : String) :
    (∀ p : Coordinate, lat_long_decimal_to_dms pf coord = some p ↔
      ∃ n w a b, coord.splitOn "," = [n, w] ∧ pf n = some a ∧ pf w = some b ∧
        p = (decimal_to_dms a, decimal_to_dms b)) ∧
    (lat_long_decimal_to_dms pf coord = none ↔
      ¬ ∃ n w, coord.splitOn "," = [n, w] ∧
        (pf n).isSome = true ∧ (pf w).isSome = true) := by
  rcases hs : coord.splitOn "," with _ | ⟨n, _ | ⟨w, _ | ⟨x, rest⟩⟩⟩
  · have hv : lat_long_decimal_to_dms pf coord = none := by
      unfold lat_long_decimal_to_dms
      rw [hs]
    rw [hv]
    constructor
    · intro p
      simp [hs]
    · simp [hs]
  · have hv : lat_long_decimal_to_dms pf coord = none := by
      unfold lat_long_decimal_to_dms
      rw [hs]
    rw [hv]
    constructor
    · intro p
      simp [hs]
    · simp [hs]
  · have hv := @lat_long_eval pf coord n w hs
    cases hn : pf n with
    | none =>
      have hv2 : lat_long_decimal_to_dms pf coord = none := by
        rw [hv, hn]
      rw [hv2]
      constructor
      · intro p
        simp [hs, hn]
      · simp [hs, hn]
    | some a =>
      cases hw : pf w with
      | none =>
        have hv2 : lat_long_decimal_to_dms pf coord = none := by
          rw [hv, hn, hw]
        rw [hv2]
        constructor
        · intro p
          simp [hs, hn, hw]
        · simp [hs, hn, hw]
      | some b =>
        have hv2 : lat_long_decimal_to_dms pf coord
            = some (decimal_to_dms a, decimal_to_dms b) := by
          rw [hv, hn, hw]
        rw [hv2]
        constructor
        · intro p
          constructor
          · intro hp
            obtain rfl : p = (decimal_to_dms a, decimal_to_dms b) :=
              (Option.some_inj.mp hp).symm
            exact ⟨n, w, a, b, rfl, hn, hw, rfl⟩
          · rintro ⟨n2, w2, a2, b2, hlist, hn2, hw2, hp⟩
            simp only [List.cons.injEq, and_true] at hlist
            obtain ⟨rfl, rfl⟩ := hlist
            rw [hn] at hn2
            rw [hw] at hw2
            cases hn2
            cases hw2
            rw [hp]
        · simp [hn, hw]
  · have hv : lat_long_decimal_to_dms pf coord = none := by
      unfold lat_long_decimal_to_dms
      rw [hs]
    rw [hv]
    constructor
    · intro p
      simp [hs]
    · simp [hs]
